import Mathlib

set_option maxRecDepth 10000

/-!
# Verification of `test-eventhub.py`

Shallow embedding of the one-shot EventHub test script
(`src/test-eventhub.py`) and proofs of its specified properties.

The script builds a fixed order-event record, serializes it with
`json.dumps`, opens a producer client from a connection string, creates a
batch, adds the single serialized message, sends the batch inside an
`async with` block, and prints status banners.  The Azure SDK and the
Python `json` module are third-party collaborators: their behavior, as far
as the script exercises it, is modelled here (JSON text for the values in
play, connection-string validation, scoped-resource release), while the
script's own statements are translated line by line into a trace-producing
function.
-/

/-! ## JSON values

Python values that `json.dumps` can see in this script: strings, ints,
floats, lists, dicts.  A float is modelled as a decimal
`Json.float m e`, denoting `m / 10 ^ e` (so `99.99` is `.float 9999 2`);
this matches Python's shortest-repr printing for the finite decimals the
script uses.  Dict keys keep insertion order, as Python dicts do.
-/

inductive Json where
  | str : String → Json
  | int : Int → Json
  | float : Int → Nat → Json
  | arr : List Json → Json
  | obj : List (String × Json) → Json

/-- Decimal digit character for `n < 10`. -/
def digitChar (n : Nat) : Char := Char.ofNat (48 + n)

/-- Decimal digits of a natural number, most significant first (fuel-based
so that it reduces in the kernel; fuel `n + 1` always suffices). -/
def natDigits : Nat → Nat → List Char
  | 0, _ => []
  | f + 1, n =>
    if n < 10 then [digitChar n]
    else natDigits f (n / 10) ++ [digitChar (n % 10)]

/-- Decimal representation of a natural number. -/
def natRepr (n : Nat) : String := String.mk (natDigits (n + 1) n)

/-- Decimal representation of an integer, as Python prints `int`. -/
def intRepr : Int → String
  | Int.ofNat n => natRepr n
  | Int.negSucc n => "-" ++ natRepr (n + 1)

/-- Left-pad a digit string with zeros to `k` characters. -/
def padZeros (k : Nat) (ds : List Char) : List Char :=
  List.replicate (k - ds.length) '0' ++ ds

/-- How Python prints the finite decimal float `m / 10 ^ e`: integer part,
a dot, then exactly `e` fraction digits (`1.0` when `e = 0`, matching
`repr` of an integral float). -/
def floatRepr (m : Int) (e : Nat) : String :=
  (if m < 0 then "-" else "") ++ natRepr (m.natAbs / 10 ^ e) ++ "." ++
    String.mk (padZeros (max e 1) (natDigits (m.natAbs % 10 ^ e + 1) (m.natAbs % 10 ^ e)))

/-- JSON string escaping for the characters appearing in this script
(quote and backslash; all payload text is ASCII). -/
def escChar (c : Char) : List Char :=
  if c = '"' then ['\\', '"']
  else if c = '\\' then ['\\', '\\']
  else [c]

/-- Escape a string for inclusion in JSON text. -/
def escapeString (s : String) : String := String.mk (s.data.map escChar).flatten

/-- Join strings with a separator. -/
def joinSep (sep : String) : List String → String
  | [] => ""
  | x :: xs => xs.foldl (fun acc y => acc ++ sep ++ y) x

/-- `json.dumps` with the default separators `", "` and `": "` (fuel-based
recursion; fuel bounds the nesting depth). -/
def dumpF : Nat → Json → String
  | 0, _ => ""
  | f + 1, j =>
    match j with
    | .str s => "\"" ++ escapeString s ++ "\""
    | .int n => intRepr n
    | .float m e => floatRepr m e
    | .arr xs => "[" ++ joinSep ", " (xs.map (dumpF f)) ++ "]"
    | .obj kvs =>
        "\x7b" ++
          joinSep ", " (kvs.map (fun kv =>
            "\"" ++ escapeString kv.1 ++ "\": " ++ dumpF f kv.2)) ++
        "\x7d"

/-- `json.dumps(v)` (depth budget 20, far above the script's depth 3). -/
def dumps (j : Json) : String := dumpF 20 j

/-- A run of `n` spaces. -/
def nSpaces (n : Nat) : String := String.mk (List.replicate n ' ')

/-- `json.dumps(v, indent=step)`: item separator `",\n"`, key separator
`": "`, elements indented one level deeper, closing bracket at the
enclosing level; empty containers print on one line. -/
def dumpIndentF : Nat → Nat → Nat → Json → String
  | 0, _, _, _ => ""
  | f + 1, step, lvl, j =>
    match j with
    | .str s => "\"" ++ escapeString s ++ "\""
    | .int n => intRepr n
    | .float m e => floatRepr m e
    | .arr [] => "[]"
    | .arr (x :: xs) =>
        "[\n" ++
          joinSep ",\n" ((x :: xs).map (fun y =>
            nSpaces (step * (lvl + 1)) ++ dumpIndentF f step (lvl + 1) y)) ++
        "\n" ++ nSpaces (step * lvl) ++ "]"
    | .obj [] => "\x7b\x7d"
    | .obj (kv :: kvs) =>
        "\x7b\n" ++
          joinSep ",\n" ((kv :: kvs).map (fun p =>
            nSpaces (step * (lvl + 1)) ++ "\"" ++ escapeString p.1 ++ "\": " ++
              dumpIndentF f step (lvl + 1) p.2)) ++
        "\n" ++ nSpaces (step * lvl) ++ "\x7d"

/-- `json.dumps(v, indent=step)` (depth budget 20). -/
def dumpsIndent (step : Nat) (j : Json) : String := dumpIndentF 20 step 0 j

/-! ## JSON parsing (`json.loads`)

A recursive-descent parser over the character list, covering the JSON
fragment `json.dumps` emits for the script's values (strings with quote
and backslash escapes, integers, finite decimals, arrays, objects,
whitespace).  Fuel-based so the kernel can evaluate it.
-/

/-- Drop leading JSON whitespace. -/
def skipWs : List Char → List Char
  | [] => []
  | c :: cs =>
    if c = ' ' ∨ c = '\n' ∨ c = '\t' ∨ c = '\r' then skipWs cs else c :: cs

/-- Resolution of a character following a backslash in a JSON string:
`n`, `t` and `r` denote the control characters; quote, backslash and
slash denote themselves. -/
def escCode (c : Char) : Option Char :=
  if c = 'n' then some '\n'
  else if c = 't' then some '\t'
  else if c = 'r' then some '\r'
  else if c = '"' ∨ c = '\\' ∨ c = '/' then some c
  else none

/-- Parse a string body up to the closing quote, resolving escapes. -/
def parseStr : List Char → Option (List Char × List Char)
  | [] => none
  | '"' :: rest => some ([], rest)
  | '\\' :: c :: rest =>
    match escCode c with
    | some d => (parseStr rest).map fun p => (d :: p.1, p.2)
    | none => none
  | c :: rest => (parseStr rest).map fun p => (c :: p.1, p.2)

/-- Numeric value of a digit list. -/
def digitsToNat (ds : List Char) : Nat :=
  ds.foldl (fun a c => a * 10 + (c.toNat - 48)) 0

/-- Parse a JSON number: optional sign, digits, optional fraction.  A
number without a fraction is a Python `int`; one with a fraction is a
float `m / 10 ^ e` with `e` the number of fraction digits. -/
def parseNumber (cs : List Char) : Option (Json × List Char) :=
  let signed : Bool × List Char :=
    if cs.head? = some '-' then (true, cs.tail) else (false, cs)
  let ip := signed.2.span Char.isDigit
  if ip.1.isEmpty then none
  else
    match ip.2 with
    | '.' :: r2 =>
      let fp := r2.span Char.isDigit
      if fp.1.isEmpty then none
      else
        let m : Nat := digitsToNat ip.1 * 10 ^ fp.1.length + digitsToNat fp.1
        some (.float (if signed.1 then -(m : Int) else (m : Int)) fp.1.length, fp.2)
    | rest =>
      let n : Nat := digitsToNat ip.1
      some (.int (if signed.1 then -(n : Int) else (n : Int)), rest)

mutual

/-- Parse one JSON value. -/
def parseJson : Nat → List Char → Option (Json × List Char)
  | 0, _ => none
  | f + 1, cs =>
    match skipWs cs with
    | '"' :: rest => (parseStr rest).map fun p => (.str (String.mk p.1), p.2)
    | '[' :: rest =>
      (match skipWs rest with
       | ']' :: r2 => some (.arr [], r2)
       | _ => (parseArrItems f rest).map fun p => (.arr p.1, p.2))
    | '\x7b' :: rest =>
      (match skipWs rest with
       | '\x7d' :: r2 => some (.obj [], r2)
       | _ => (parseObjItems f rest).map fun p => (.obj p.1, p.2))
    | rest => parseNumber rest

/-- Parse the comma-separated elements of a non-empty array, consuming the
closing bracket. -/
def parseArrItems : Nat → List Char → Option (List Json × List Char)
  | 0, _ => none
  | f + 1, cs =>
    (parseJson f cs).bind fun p =>
      match skipWs p.2 with
      | ',' :: r2 => (parseArrItems f r2).map fun q => (p.1 :: q.1, q.2)
      | ']' :: r2 => some ([p.1], r2)
      | _ => none

/-- Parse the comma-separated members of a non-empty object, consuming the
closing brace. -/
def parseObjItems : Nat → List Char → Option (List (String × Json) × List Char)
  | 0, _ => none
  | f + 1, cs =>
    match skipWs cs with
    | '"' :: rest =>
      (parseStr rest).bind fun kp =>
        match skipWs kp.2 with
        | ':' :: r2 =>
          (parseJson f r2).bind fun vp =>
            match skipWs vp.2 with
            | ',' :: r4 =>
              (parseObjItems f r4).map fun q => ((String.mk kp.1, vp.1) :: q.1, q.2)
            | '\x7d' :: r4 => some ([(String.mk kp.1, vp.1)], r4)
            | _ => none
        | _ => none
    | _ => none

end

/-- `json.loads`: parse a complete JSON document, requiring only
whitespace after the value. -/
def loads (s : String) : Option Json :=
  match parseJson (s.data.length + 1) s.data with
  | some (j, rest) => if (skipWs rest).isEmpty then some j else none
  | none => none

/-- Field lookup in a JSON object (first match, as in a Python dict). -/
def jGet (k : String) : Json → Option Json
  | .obj kvs => (kvs.find? (fun kv => kv.1 == k)).map (fun kv => kv.2)
  | _ => none

/-! ## The fixed order record (source lines 22-31) -/

/-- The `test_order` dict literal of `send_test_message`, field for field. -/
def test_order : Json :=
  .obj [("user_id", .str "test-user-12345"),
        ("order_id", .str "test-order-67890"),
        ("timestamp", .str "2025-10-27T23:20:00Z"),
        ("amount", .float 9999 2),
        ("currency", .str "USD"),
        ("items", .arr [.obj [("product_id", .str "test-product"),
                              ("quantity", .int 1),
                              ("price", .float 9999 2)]])]

/-! ## The SDK collaborator, modelled from the spec

The Azure EventHub SDK is a third-party collaborator, not code of this
repository, so the features of it that the script exercises are modelled
from the spec (§5, §6, §9): a connection string carrying an endpoint and a
credential, rejected at client construction when blank or malformed before
any network activity; a scoped (`async with`) connection released
unconditionally at scope exit; a batch container transmitted by
`send_batch`.
-/

/-- Modelled from the spec: the parsed form of a connection string, an
"endpoint + credential" (§6). -/
structure ConnInfo where
  endpointURL : String
  sharedAccessKeyName : String
  sharedAccessKey : String
deriving DecidableEq, Repr

/-- Split a character list on a separator character. -/
def splitOnChar (sep : Char) : List Char → List (List Char)
  | [] => [[]]
  | c :: cs =>
    if c = sep then [] :: splitOnChar sep cs
    else
      match splitOnChar sep cs with
      | [] => [[c]]
      | g :: gs => (c :: g) :: gs

/-- Split a character list at the first `=`, if any. -/
def breakAtEq : List Char → Option (List Char × List Char)
  | [] => none
  | '=' :: rest => some ([], rest)
  | c :: rest => (breakAtEq rest).map fun p => (c :: p.1, p.2)

/-- The `Key=Value` pairs of a semicolon-separated connection string;
parts without an `=` are dropped. -/
def connFields (s : String) : List (String × String) :=
  (splitOnChar ';' s.data).filterMap fun part =>
    (breakAtEq part).map fun p => (String.mk p.1, String.mk p.2)

/-- Modelled from the spec: client construction
(`EventHubProducerClient.from_connection_string`) validates the connection
string eagerly — it must supply a non-empty endpoint and credential — and
raises on a blank or malformed string before any network operation (§6,
§9, "the script as given cannot run unmodified"). -/
def parseConnectionString (s : String) : Option ConnInfo :=
  let fs := connFields s
  match (fs.find? fun kv => kv.1 == "Endpoint"),
        (fs.find? fun kv => kv.1 == "SharedAccessKeyName"),
        (fs.find? fun kv => kv.1 == "SharedAccessKey") with
  | some ep, some kn, some k =>
    if ep.2.isEmpty ∨ kn.2.isEmpty ∨ k.2.isEmpty then none
    else some ⟨ep.2, kn.2, k.2⟩
  | _, _, _ => none

/-! ## The script as a trace-producing function

Each observable step of `send_test_message` (source lines 10-43) emits one
event; the pure record construction emits none.  Failures of the two
network calls (`create_batch`, which establishes the connection, and
`send_batch`) are modelled by an environment of two flags, since the
script itself never inspects or handles them.
-/

/-- Errors the script can propagate (it never catches any). -/
inductive EHError where
  | invalidConnectionString
  | connectionError
  | sendError
deriving DecidableEq, Repr

/-- One observable step of the script. -/
inductive Event where
  /-- the `async with producer` scope is entered (line 20) -/
  | scopeEnter
  /-- `producer.create_batch()` is called — the first network operation
  (line 34) -/
  | createBatch
  /-- `json.dumps(test_order)` produces `s` (line 37) -/
  | serialize (s : String)
  /-- `EventData(s)` wraps the string as a single message (line 37) -/
  | wrap (s : String)
  /-- `event_data_batch.add(event_data)` appends the message (line 38) -/
  | append (s : String)
  /-- `producer.send_batch(batch)` transmits `batch` to hub `hub`
  (line 41) -/
  | sendAttempt (hub : String) (batch : List String)
  /-- the service accepted the batch: delivery -/
  | delivered (hub : String) (batch : List String)
  /-- a `print(...)` call wrote `s` (lines 42-43, 46, 48) -/
  | printed (s : String)
  /-- the `async with` scope exits and the producer connection is closed -/
  | closed
deriving DecidableEq, Repr

/-- Outcomes of the two network calls, outside the script's control. -/
structure Env where
  createBatchOk : Bool
  sendOk : Bool
deriving DecidableEq, Repr

/-- Source line 11: the connection string is the empty literal. -/
def connection_string : String := ""

/-- Source line 12. -/
def eventhub_name : String := "otel-events"

/-- Source lines 42 and 46 and 48: the printed banners. -/
def successBanner : String := "✅ Successfully sent test message to EventHub!"

/-- The body of the `async with producer:` block (lines 20-43): build the
record, create a batch, wrap and append the serialized record, send the
batch, print the banners.  Exceptions of the two network calls abort the
body at that point. -/
def sessionBody (env : Env) : List Event × Except EHError Unit :=
  if env.createBatchOk then
    let event_data := dumps test_order
    let event_data_batch : List String := [] ++ [event_data]
    if env.sendOk then
      ([Event.createBatch, Event.serialize event_data, Event.wrap event_data,
        Event.append event_data,
        Event.sendAttempt eventhub_name event_data_batch,
        Event.delivered eventhub_name event_data_batch,
        Event.printed successBanner,
        Event.printed ("📋 Message: " ++ dumpsIndent 2 test_order)], Except.ok ())
    else
      ([Event.createBatch, Event.serialize event_data, Event.wrap event_data,
        Event.append event_data,
        Event.sendAttempt eventhub_name event_data_batch], Except.error EHError.sendError)
  else
    ([Event.createBatch], Except.error EHError.connectionError)

/-- `send_test_message` (source lines 10-43), with the connection string
as a parameter (spec §9 treats its provisioning as external
configuration; the source hardcodes `connection_string = ""`).  Client
construction validates the string first; once the scope is entered, the
close event is emitted whether the body succeeds or raises. -/
def send_test_message (connStr : String) (env : Env) :
    List Event × Except EHError Unit :=
  match parseConnectionString connStr with
  | none => ([], Except.error EHError.invalidConnectionString)
  | some _ =>
    (Event.scopeEnter :: (sessionBody env).1 ++ [Event.closed], (sessionBody env).2)

/-- The `__main__` block (lines 45-48): print the opening banner, run
`send_test_message`, print the closing banner on success.  An uncaught
exception terminates the Python process with exit status 1; completion
exits with status 0. -/
def run_script (connStr : String) (env : Env) : List Event × Nat :=
  match send_test_message connStr env with
  | (tr, Except.ok _) =>
      (Event.printed "🔄 Testing EventHub integration..." :: tr ++
        [Event.printed "✨ Test completed!"], 0)
  | (tr, Except.error _) =>
      (Event.printed "🔄 Testing EventHub integration..." :: tr, 1)

/-! ## Trace observations -/

/-- The transmissions in a trace: hub and batch of each send attempt. -/
def sends (tr : List Event) : List (String × List String) :=
  tr.filterMap fun e =>
    match e with
    | Event.sendAttempt h b => some (h, b)
    | _ => none

/-- The accepted deliveries in a trace. -/
def deliveries (tr : List Event) : List (String × List String) :=
  tr.filterMap fun e =>
    match e with
    | Event.delivered h b => some (h, b)
    | _ => none

/-- The console lines printed in a trace. -/
def printedLines (tr : List Event) : List String :=
  tr.filterMap fun e =>
    match e with
    | Event.printed s => some s
    | _ => none

/-- The strings produced by serialization steps in a trace. -/
def serializedBodies (tr : List Event) : List String :=
  tr.filterMap fun e =>
    match e with
    | Event.serialize s => some s
    | _ => none

/-- The workflow-step tags of claim C5: batch creation, serialization,
wrapping, appending, transmission. -/
inductive StepTag where
  | createBatch
  | serialize
  | wrap
  | append
  | send
deriving DecidableEq, Repr

/-- Restriction of a trace to the five workflow steps of claim C5. -/
def stepsOf (tr : List Event) : List StepTag :=
  tr.filterMap fun e =>
    match e with
    | Event.createBatch => some StepTag.createBatch
    | Event.serialize _ => some StepTag.serialize
    | Event.wrap _ => some StepTag.wrap
    | Event.append _ => some StepTag.append
    | Event.sendAttempt _ _ => some StepTag.send
    | _ => none

/-- A well-formed connection string, for concrete instantiations. -/
def validConn : String :=
  "Endpoint=sb://test.servicebus.windows.net/;SharedAccessKeyName=RootManageSharedAccessKey;SharedAccessKey=abc12345"

/-- Whether the send procedure ran to completion. -/
def isOkResult : Except EHError Unit → Bool
  | Except.ok _ => true
  | Except.error _ => false

/-! ## The Order Event shape (spec §3) -/

/-- A JSON number (Python `int` or `float`), the spec's "decimal". -/
def isNumberJson : Json → Bool
  | Json.int _ => true
  | Json.float _ _ => true
  | _ => false

/-- An ISO-8601 UTC timestamp string of the form
`YYYY-MM-DDTHH:MM:SSZ`. -/
def isIso8601UTC (s : String) : Bool :=
  match s.data with
  | [y1, y2, y3, y4, '-', m1, m2, '-', d1, d2, 'T',
     h1, h2, ':', n1, n2, ':', s1, s2, 'Z'] =>
      y1.isDigit && y2.isDigit && y3.isDigit && y4.isDigit &&
      m1.isDigit && m2.isDigit && d1.isDigit && d2.isDigit &&
      h1.isDigit && h2.isDigit && n1.isDigit && n2.isDigit &&
      s1.isDigit && s2.isDigit
  | _ => false

/-- An ISO 4217 currency code string: three uppercase letters. -/
def isCurrencyCode (s : String) : Bool :=
  match s.data with
  | [a, b, c] => a.isUpper && b.isUpper && c.isUpper
  | _ => false

/-- One line item: `\x7bproduct_id: string, quantity: integer,
price: decimal\x7d` (spec §3). -/
def isOrderItem : Json → Bool
  | Json.obj [("product_id", Json.str _), ("quantity", Json.int _),
              ("price", p)] => isNumberJson p
  | _ => false

/-- The Order Event entity of spec §3: string `user_id` and `order_id`,
ISO-8601 UTC `timestamp`, decimal `amount`, ISO 4217 `currency`, and an
ordered sequence of line items. -/
def isOrderEvent : Json → Bool
  | Json.obj [("user_id", Json.str _), ("order_id", Json.str _),
              ("timestamp", Json.str ts), ("amount", a),
              ("currency", Json.str c), ("items", Json.arr items)] =>
      isIso8601UTC ts && isNumberJson a && isCurrencyCode c &&
      items.all isOrderItem
  | _ => false

/-- Sanity: the model serializes the record to exactly the JSON text
`json.dumps(test_order)` prints. -/
theorem dumps_test_order_text : dumps test_order =
    "\x7b\"user_id\": \"test-user-12345\", \"order_id\": \"test-order-67890\", \"timestamp\": \"2025-10-27T23:20:00Z\", \"amount\": 99.99, \"currency\": \"USD\", \"items\": [\x7b\"product_id\": \"test-product\", \"quantity\": 1, \"price\": 99.99\x7d]\x7d" := by
  rfl

/-! ## Claims -/

/-- Claim C1: with a valid reachable target (well-formed connection
string, both network calls succeeding), exactly one message is delivered
to the configured hub, and its body is the JSON serialization of the
record whose fields are exactly `user_id = "test-user-12345"`,
`order_id = "test-order-67890"`, the fixed timestamp,
`amount = 99.99`, `currency = "USD"`, and one item with `quantity = 1`
and `price = 99.99`. -/
theorem C1_valid_send_delivers_fixed_record (connStr : String) (env : Env)
    (hvalid : (parseConnectionString connStr).isSome = true)
    (hconn : env.createBatchOk = true) (hsend : env.sendOk = true) :
    deliveries (send_test_message connStr env).1 =
      [(eventhub_name, [dumps test_order])] ∧
    loads (dumps test_order) = some test_order ∧
    test_order = Json.obj
      [("user_id", Json.str "test-user-12345"),
       ("order_id", Json.str "test-order-67890"),
       ("timestamp", Json.str "2025-10-27T23:20:00Z"),
       ("amount", Json.float 9999 2),
       ("currency", Json.str "USD"),
       ("items", Json.arr [Json.obj [("product_id", Json.str "test-product"),
                                     ("quantity", Json.int 1),
                                     ("price", Json.float 9999 2)]])] := by
  obtain ⟨c, hc⟩ := Option.isSome_iff_exists.mp hvalid
  refine ⟨?_, rfl, rfl⟩
  simp [send_test_message, hc, sessionBody, hconn, hsend, deliveries]

/-- Claim C1, instantiated: a concrete well-formed connection string and
a fully successful environment. -/
theorem C1_valid_send_delivers_fixed_record_witness :
    deliveries (send_test_message validConn ⟨true, true⟩).1 =
      [(eventhub_name, [dumps test_order])] ∧
    loads (dumps test_order) = some test_order ∧
    test_order = Json.obj
      [("user_id", Json.str "test-user-12345"),
       ("order_id", Json.str "test-order-67890"),
       ("timestamp", Json.str "2025-10-27T23:20:00Z"),
       ("amount", Json.float 9999 2),
       ("currency", Json.str "USD"),
       ("items", Json.arr [Json.obj [("product_id", Json.str "test-product"),
                                     ("quantity", Json.int 1),
                                     ("price", Json.float 9999 2)]])] :=
  C1_valid_send_delivers_fixed_record validConn ⟨true, true⟩ rfl rfl rfl

/-- Claim C2: with the source's empty connection-string literal, client
construction raises before any network operation — the trace is empty, so
no send is attempted — the result is an error, the success banner is
never printed, and the process exits with status 1. -/
theorem C2_empty_connection_string_rejected (env : Env) :
    (send_test_message connection_string env).1 = [] ∧
    (send_test_message connection_string env).2 =
      Except.error EHError.invalidConnectionString ∧
    sends (send_test_message connection_string env).1 = [] ∧
    (printedLines (send_test_message connection_string env).1).contains
      successBanner = false ∧
    (run_script connection_string env).2 = 1 :=
  ⟨rfl, rfl, rfl, rfl, rfl⟩

/-- Claim C3: serializing the fixed order record to JSON and parsing the
result back yields the original record; the `amount` field is `99.99`
(the decimal `9999 / 10 ^ 2`) and `items` is a one-element sequence. -/
theorem C3_json_round_trip :
    loads (dumps test_order) = some test_order ∧
    jGet "amount" test_order = some (Json.float 9999 2) ∧
    jGet "items" test_order =
      some (Json.arr [Json.obj [("product_id", Json.str "test-product"),
                                ("quantity", Json.int 1),
                                ("price", Json.float 9999 2)]]) :=
  ⟨rfl, rfl, rfl⟩

/-- Claim C4: whenever the client is constructed (the connection string
is well-formed), the scoped connection is entered, and the trace ends
with the close event — on the success path and on every failure path. -/
theorem C4_scoped_connection_released (connStr : String) (env : Env)
    (hvalid : (parseConnectionString connStr).isSome = true) :
    Event.scopeEnter ∈ (send_test_message connStr env).1 ∧
    (send_test_message connStr env).1.getLast? = some Event.closed := by
  obtain ⟨c, hc⟩ := Option.isSome_iff_exists.mp hvalid
  obtain ⟨cb, so⟩ := env
  cases cb <;> cases so <;>
    simp [send_test_message, hc, sessionBody]

/-- Claim C4, instantiated: concrete connection string, with the send
call failing, the connection is still released. -/
theorem C4_scoped_connection_released_witness :
    Event.scopeEnter ∈ (send_test_message validConn ⟨true, false⟩).1 ∧
    (send_test_message validConn ⟨true, false⟩).1.getLast? =
      some Event.closed :=
  C4_scoped_connection_released validConn ⟨true, false⟩ rfl

/-- Claim C5 as stated is false: the claimed linear order puts
serialization and wrapping before batch creation, but the script calls
`producer.create_batch()` (line 34) before `json.dumps`/`EventData`
(line 37).  Concretely, with a well-formed connection string and a fully
successful run, the workflow-step sequence is not
serialize-wrap-create-append-send. -/
theorem C5_counterexample_create_batch_first :
    ¬ (stepsOf (send_test_message validConn ⟨true, true⟩).1 =
        [StepTag.serialize, StepTag.wrap, StepTag.createBatch,
         StepTag.append, StepTag.send]) := by
  decide

/-- Claim C5 (amended): the send operation performs its steps in this
fixed linear order — create an empty batch, serialize the fixed record to
a JSON string, wrap it as a single message, append exactly that one
message to the batch, then transmit the batch; the transmitted batch
contains exactly one message. -/
theorem C5_step_order (connStr : String) (env : Env)
    (hvalid : (parseConnectionString connStr).isSome = true)
    (hconn : env.createBatchOk = true) (hsend : env.sendOk = true) :
    stepsOf (send_test_message connStr env).1 =
      [StepTag.createBatch, StepTag.serialize, StepTag.wrap,
       StepTag.append, StepTag.send] ∧
    sends (send_test_message connStr env).1 =
      [(eventhub_name, [dumps test_order])] := by
  obtain ⟨c, hc⟩ := Option.isSome_iff_exists.mp hvalid
  constructor <;>
    simp [send_test_message, hc, sessionBody, hconn, hsend, stepsOf, sends]

/-- Claim C5 (amended), instantiated at a concrete well-formed connection
string and a fully successful environment. -/
theorem C5_step_order_witness :
    stepsOf (send_test_message validConn ⟨true, true⟩).1 =
      [StepTag.createBatch, StepTag.serialize, StepTag.wrap,
       StepTag.append, StepTag.send] ∧
    sends (send_test_message validConn ⟨true, true⟩).1 =
      [(eventhub_name, [dumps test_order])] :=
  C5_step_order validConn ⟨true, true⟩ rfl rfl rfl

/-- Claim C6: every transmission in any execution carries a single
message, addressed to the hub named `otel-events`, whose body is the JSON
encoding of a value matching the Order Event shape of spec §3. -/
theorem C6_wire_payload_shape (connStr : String) (env : Env)
    (hub : String) (batch : List String)
    (hmem : Event.sendAttempt hub batch ∈ (send_test_message connStr env).1) :
    hub = "otel-events" ∧ batch = [dumps test_order] ∧
    ∃ j, loads (dumps test_order) = some j ∧ isOrderEvent j = true := by
  cases hp : parseConnectionString connStr with
  | none => simp [send_test_message, hp] at hmem
  | some c =>
    obtain ⟨cb, so⟩ := env
    cases cb with
    | false => simp [send_test_message, hp, sessionBody] at hmem
    | true =>
      cases so with
      | false =>
        simp [send_test_message, hp, sessionBody, eventhub_name] at hmem
        exact ⟨hmem.1, hmem.2, test_order, rfl, rfl⟩
      | true =>
        simp [send_test_message, hp, sessionBody, eventhub_name] at hmem
        exact ⟨hmem.1, hmem.2, test_order, rfl, rfl⟩

/-- Claim C6, instantiated: the send attempt of a concrete successful
run. -/
theorem C6_wire_payload_shape_witness :
    eventhub_name = "otel-events" ∧ [dumps test_order] = [dumps test_order] ∧
    ∃ j, loads (dumps test_order) = some j ∧ isOrderEvent j = true :=
  C6_wire_payload_shape validConn ⟨true, true⟩ eventhub_name
    [dumps test_order] (by decide)

/-- Claim C7: the process exits with status 0 exactly when the send
procedure ran to completion and with status 1 when any failure
propagated; nothing is retried — any execution makes at most one
connection attempt and at most one send attempt. -/
theorem C7_exit_status_no_retry (connStr : String) (env : Env) :
    (run_script connStr env).2 =
      (if isOkResult (send_test_message connStr env).2 then 0 else 1) ∧
    (sends (run_script connStr env).1).length ≤ 1 ∧
    (run_script connStr env).1.count Event.createBatch ≤ 1 := by
  obtain ⟨cb, so⟩ := env
  cases hp : parseConnectionString connStr <;> cases cb <;> cases so <;>
    simp [run_script, send_test_message, hp, sessionBody, isOkResult, sends]

/-- Claim C8: the record is a fixed literal left unchanged by
serialization, batching, sending and printing — on a successful run the
console output is exactly the success banner followed by the echoed
record, and parsing the echoed JSON back yields precisely the record that
was constructed. -/
theorem C8_record_unchanged_echo (connStr : String) (env : Env)
    (hvalid : (parseConnectionString connStr).isSome = true)
    (hconn : env.createBatchOk = true) (hsend : env.sendOk = true) :
    printedLines (send_test_message connStr env).1 =
      [successBanner, "📋 Message: " ++ dumpsIndent 2 test_order] ∧
    loads (dumpsIndent 2 test_order) = some test_order := by
  obtain ⟨c, hc⟩ := Option.isSome_iff_exists.mp hvalid
  refine ⟨?_, rfl⟩
  simp [send_test_message, hc, sessionBody, hconn, hsend, printedLines]

/-- Claim C8, instantiated at a concrete successful run. -/
theorem C8_record_unchanged_echo_witness :
    printedLines (send_test_message validConn ⟨true, true⟩).1 =
      [successBanner, "📋 Message: " ++ dumpsIndent 2 test_order] ∧
    loads (dumpsIndent 2 test_order) = some test_order :=
  C8_record_unchanged_echo validConn ⟨true, true⟩ rfl rfl rfl

/-- Claim C9: the record's timestamp is the fixed literal
`2025-10-27T23:20:00Z`, not a value computed at run time: in every
execution, every transmitted batch is the single fixed serialized body,
whose `timestamp` field is that literal. -/
theorem C9_fixed_timestamp (connStr : String) (env : Env) :
    jGet "timestamp" test_order = some (Json.str "2025-10-27T23:20:00Z") ∧
    (loads (dumps test_order)).bind (jGet "timestamp") =
      some (Json.str "2025-10-27T23:20:00Z") ∧
    ((sends (send_test_message connStr env).1).all fun p =>
      p.2 == [dumps test_order]) = true := by
  refine ⟨rfl, rfl, ?_⟩
  obtain ⟨cb, so⟩ := env
  cases hp : parseConnectionString connStr <;> cases cb <;> cases so <;>
    simp [send_test_message, hp, sessionBody, sends]

/-- In any execution, every serialized body is the one fixed JSON
string. -/
theorem serializedBodies_all_fixed (connStr : String) (env : Env) :
    ((serializedBodies (send_test_message connStr env).1).all fun s =>
      s == dumps test_order) = true := by
  obtain ⟨cb, so⟩ := env
  cases hp : parseConnectionString connStr <;> cases cb <;> cases so <;>
    simp [send_test_message, hp, sessionBody, serializedBodies]

/-- In any execution, every delivery carries the one fixed body to the
configured hub. -/
theorem deliveries_all_fixed (connStr : String) (env : Env) :
    ((deliveries (send_test_message connStr env).1).all fun p =>
      p == (eventhub_name, [dumps test_order])) = true := by
  obtain ⟨cb, so⟩ := env
  cases hp : parseConnectionString connStr <;> cases cb <;> cases so <;>
    simp [send_test_message, hp, sessionBody, deliveries]

/-- Claim C10: the payload is deterministic — in any two executions,
every serialized message body equals the one fixed JSON string (byte
identical, same key order and values), and every delivery carries exactly
that content to the same hub. -/
theorem C10_deterministic_payload (connStr1 connStr2 : String)
    (env1 env2 : Env) :
    ((serializedBodies (send_test_message connStr1 env1).1).all fun s =>
      s == dumps test_order) = true ∧
    ((serializedBodies (send_test_message connStr2 env2).1).all fun s =>
      s == dumps test_order) = true ∧
    ((deliveries (send_test_message connStr1 env1).1).all fun p =>
      p == (eventhub_name, [dumps test_order])) = true ∧
    ((deliveries (send_test_message connStr2 env2).1).all fun p =>
      p == (eventhub_name, [dumps test_order])) = true :=
  ⟨serializedBodies_all_fixed connStr1 env1,
   serializedBodies_all_fixed connStr2 env2,
   deliveries_all_fixed connStr1 env1,
   deliveries_all_fixed connStr2 env2⟩
